import Mathlib

set_option linter.all false

/-
Verification development for the movie/TV release Telegram bot
(src/movie_release_bot.py).  The bot's pure logic is shallowly embedded:
HTTP calls to the catalog (TMDB) are oracles passed as functions, the
random generator is an oracle, dates are day offsets, and uncaught Python
exceptions are an explicit `raised`/`error` outcome of the embedded
functions.
-/

namespace MovieBot

/-- Raw catalog search hit (one element of a TMDB discover `results` array).
`posterPath = none` models an absent or JSON-null `poster_path`. -/
structure RawItem where
  id : Nat
  title : String
  overview : String
  posterPath : Option String
  popularity : Rat
  voteAverage : Rat
  voteCount : Nat
  genreIds : List Nat
  releaseDate : String
deriving Repr, DecidableEq, Inhabited

/-- Python truthiness of `item.get("poster_path")`: present and non-empty. -/
def hasPosterPath (it : RawItem) : Bool :=
  match it.posterPath with
  | some p => !p.isEmpty
  | none => false

/-- Python `f"...{item['poster_path']}"`: a `None` value prints as "None". -/
def posterPathStr (it : RawItem) : String :=
  match it.posterPath with
  | some p => p
  | none => "None"

/-- One region entry of the `watch/providers` payload.  `flatrate`/`buy` are
`none` when the key is absent; `otherKeys` counts the remaining dict keys
(such as `link`), so the dict is Python-falsy iff all three are empty. -/
structure WatchRegion where
  flatrate : Option (List String)
  buy : Option (List String)
  otherKeys : Nat
deriving Repr, DecidableEq, Inhabited

/-- The `results` object of the `watch/providers` payload, restricted to the
two regions the code reads.  `none` models an absent region key. -/
structure WatchProviders where
  ru : Option WatchRegion
  us : Option WatchRegion
deriving Repr, DecidableEq, Inhabited

/-- One entry of the `videos.results` array. -/
structure Video where
  videoType : String
  site : String
  key : String
deriving Repr, DecidableEq, Inhabited

/-- Detail payload fetched by `_get_item_details_blocking`. -/
structure Details where
  watchProviders : WatchProviders
  videos : List Video
deriving Repr, DecidableEq, Inhabited

/-- Insertion step of a string insertion sort using `compare` (models the
lexicographic order of Python `sorted` on the short provider lists). -/
def insertSorted (a : String) : List String → List String
  | [] => [a]
  | b :: l => if compare a b ≠ Ordering.gt then a :: b :: l else b :: insertSorted a l

/-- Insertion sort on strings. -/
def sortStrings : List String → List String
  | [] => []
  | a :: l => insertSorted a (sortStrings l)

/-- Python `sorted(list(set(xs)))`: distinct elements in sorted order. -/
def pySortedSet (l : List String) : List String := sortStrings l.eraseDups

/-- Provider names selected by `_get_watch_status_string` from one region:
up to two `flatrate` names, else up to two `buy` names. -/
def region_providers (r : WatchRegion) : List String :=
  let providers : List String :=
    match r.flatrate with
    | some (a :: l) => (a :: l).take 2
    | _ => []
  match r.buy, providers with
  | some (a :: l), [] => (a :: l).take 2
  | _, p => p

/-- Tail of `_get_watch_status_string` after the region has been selected:
`results` is the chosen region dict (or `none` when both lookups missed). -/
def summary_of_results : Option WatchRegion → String
  | none => "Статус релиза неизвестен"
  | some r =>
    if r.flatrate = none ∧ r.buy = none ∧ r.otherKeys = 0 then
      "Статус релиза неизвестен"
    else
      let providers := region_providers r
      if providers.isEmpty then "Статус релиза неизвестен"
      else "📺 Онлайн: " ++ String.intercalate ", " (pySortedSet providers)

/-- `_get_watch_status_string`: region selection is
`results.get("RU", results.get("US"))`, i.e. the US entry is consulted only
when the RU key is absent. -/
def get_watch_status_string (d : WatchProviders) : String :=
  summary_of_results (match d.ru with | some r => some r | none => d.us)

/-- `_parse_trailer`: first video whose type is Trailer on YouTube. -/
def parse_trailer (videos : List Video) : Option String :=
  match videos.find? (fun v => v.videoType == "Trailer" && v.site == "YouTube") with
  | some v => some ("https://www.youtube.com/watch?v=" ++ v.key)
  | none => none

/-- Display-ready record built by `_enrich_item_data`: all raw fields are
kept, the overview is replaced by its translation, and watch status,
trailer URL and full poster URL are added. -/
structure EnrichedItem where
  id : Nat
  title : String
  overview : String
  posterPath : Option String
  popularity : Rat
  voteAverage : Rat
  voteCount : Nat
  genreIds : List Nat
  releaseDate : String
  itemType : String
  watchStatus : String
  trailerUrl : Option String
  posterUrl : String
deriving Repr, DecidableEq, Inhabited

/-- `_enrich_item_data`; `fetchDetails` is the oracle for
`_get_item_details_blocking` and `translate` for `translate_text_blocking`. -/
def enrich_item_data (fetchDetails : Nat → String → Details)
    (translate : String → String) (item : RawItem) (itemType : String) :
    EnrichedItem :=
  let details := fetchDetails item.id itemType
  { id := item.id
    title := item.title
    overview := translate item.overview
    posterPath := item.posterPath
    popularity := item.popularity
    voteAverage := item.voteAverage
    voteCount := item.voteCount
    genreIds := item.genreIds
    releaseDate := item.releaseDate
    itemType := itemType
    watchStatus := get_watch_status_string details.watchProviders
    trailerUrl := parse_trailer details.videos
    posterUrl := "https://image.tmdb.org/t/p/w780" ++ posterPathStr item }

/-- `_get_todays_top_digital_releases_blocking`: `search region` is the
oracle for the discover query with today's exact-date window in the given
region.  Empty poster-filtered RU results trigger the US retry. -/
def get_todays_top_digital_releases (search : String → List RawItem)
    (fetchDetails : Nat → String → Details) (translate : String → String)
    (limit : Nat) : List EnrichedItem :=
  let releases := (search "RU").filter (fun m => hasPosterPath m)
  let releases :=
    if releases.isEmpty then (search "US").filter (fun m => hasPosterPath m)
    else releases
  (releases.take limit).map (fun m => enrich_item_data fetchDetails translate m "movie")

/-- `_get_todays_top_series_premieres_blocking`: a single query with watch
region RU; no second query is ever issued. -/
def get_todays_top_series_premieres (search : String → List RawItem)
    (fetchDetails : Nat → String → Details) (translate : String → String)
    (limit : Nat) : List EnrichedItem :=
  let releases := (search "RU").filter (fun s => hasPosterPath s)
  (releases.take limit).map (fun s => enrich_item_data fetchDetails translate s "tv")

/-- Poster-filtered hits and request count for one day of the movie
next-release walk (`_get_next_digital_releases_blocking` loop body):
one RU request, plus a US retry when the filtered RU hits are empty. -/
def movie_day_hits (search : Nat → String → List RawItem) (i : Nat) :
    List RawItem × Nat :=
  let ru := (search i "RU").filter (fun m => hasPosterPath m)
  if ru.isEmpty then ((search i "US").filter (fun m => hasPosterPath m), 2)
  else (ru, 1)

/-- Poster-filtered hits and request count for one day of the series
next-release walk: a single RU request, no fallback. -/
def series_day_hits (search : Nat → String → List RawItem) (i : Nat) :
    List RawItem × Nat :=
  ((search i "RU").filter (fun s => hasPosterPath s), 1)

/-- Shared day-walk of `_get_next_digital_releases_blocking` and
`_get_next_series_premieres_blocking`.  Day `i` stands for the date
tomorrow + `i` days; the second component of the result counts catalog
requests.  Stops at the first day with a non-empty hit list. -/
def next_releases_loop (dayHits : Nat → List RawItem × Nat)
    (enrich : RawItem → EnrichedItem) (limit : Nat) :
    Nat → Nat → (List EnrichedItem × Option Nat) × Nat
  | _, 0 => (([], none), 0)
  | i, rem + 1 =>
    let hc := dayHits i
    if hc.1.isEmpty then
      let r := next_releases_loop dayHits enrich limit (i + 1) rem
      (r.1, hc.2 + r.2)
    else (((hc.1.take limit).map enrich, some i), hc.2)

/-- `_get_next_digital_releases_blocking` (movies, with region fallback). -/
def get_next_digital_releases (search : Nat → String → List RawItem)
    (fetchDetails : Nat → String → Details) (translate : String → String)
    (limit searchDays : Nat) : (List EnrichedItem × Option Nat) × Nat :=
  next_releases_loop (movie_day_hits search)
    (fun m => enrich_item_data fetchDetails translate m "movie") limit 0 searchDays

/-- `_get_next_series_premieres_blocking` (series, single region). -/
def get_next_series_premieres (search : Nat → String → List RawItem)
    (fetchDetails : Nat → String → Details) (translate : String → String)
    (limit searchDays : Nat) : (List EnrichedItem × Option Nat) × Nat :=
  next_releases_loop (series_day_hits search)
    (fun s => enrich_item_data fetchDetails translate s "tv") limit 0 searchDays

/-- Discovery part of `year_command`: poster filter, top 3, enrich.
`search` is the oracle for the historical exact-date discover query. -/
def year_command_movies (search : List RawItem)
    (fetchDetails : Nat → String → Details) (translate : String → String) :
    List EnrichedItem :=
  let baseMovies := (search.filter (fun m => hasPosterPath m)).take 3
  baseMovies.map (fun m => enrich_item_data fetchDetails translate m "movie")

/-- Value of one query parameter (string or numeric). -/
inductive PVal where
  | s (v : String)
  | n (v : Rat)
deriving Repr, DecidableEq

/-- Python dict as an assignment list; a later binding of a key shadows an
earlier one, as in `{**a, **b}` and `d[k] = v`. -/
abbrev Params := List (String × PVal)

/-- Dict lookup: the last binding of the key wins. -/
def py_get (d : Params) (k : String) : Option PVal :=
  ((List.reverse d).find? (fun p => p.1 == k)).map (fun p => p.2)

/-- Dict assignment `d[k] = v`, lookup-equivalent to Python's update. -/
def py_set (d : Params) (k : String) (v : PVal) : Params :=
  List.append d [(k, v)]

/-- Grouping step of Python `str.split(sep)` over the character list. -/
def splitChars (sep : Char) : List Char → List (List Char)
  | [] => [[]]
  | c :: cs =>
    match splitChars sep cs with
    | [] => [[]]
    | g :: gs => if c = sep then [] :: g :: gs else (c :: g) :: gs

/-- Python `s.split(sep)` for a one-character separator. -/
def py_split (s : String) (sep : Char) : List String :=
  (splitChars sep s.data).map (fun l => String.mk l)

/-- Characters remaining after Python strips surrounding whitespace. -/
def pyStrip (l : List Char) : List Char :=
  ((l.dropWhile (fun c => c.isWhitespace)).reverse.dropWhile (fun c => c.isWhitespace)).reverse

/-- Numeric value of a non-empty all-digit character list. -/
def digitsVal (l : List Char) : Option Nat :=
  if l.isEmpty then none
  else if l.all (fun c => c.isDigit) then
    some (l.foldl (fun acc c => acc * 10 + (c.toNat - 48)) 0)
  else none

/-- Python `int(s)`: optional surrounding whitespace and sign, then digits;
anything else raises ValueError, modelled as `none`. -/
def parsePyInt (s : String) : Option Int :=
  match pyStrip s.data with
  | '-' :: rest => (digitsVal rest).map (fun n => -(n : Int))
  | '+' :: rest => (digitsVal rest).map (fun n => (n : Int))
  | t => (digitsVal t).map (fun n => (n : Int))

/-- Response to one discover request in the random flow; `totalPages` is
`none` when the payload lacks `total_pages` (the code defaults it to 1). -/
structure GatewayPage where
  totalPages : Option Nat
  results : List RawItem
deriving Repr, DecidableEq, Inhabited

/-- Outcome of the guarded network phase of `find_and_send_random_item`:
a user-facing no-match message, the caught-exception apology, or a found
raw item together with the page it was sampled from. -/
inductive RandomOutcome where
  | noMatch (msg : String)
  | errorCaught (msg : String)
  | found (item : RawItem) (page : Nat)
deriving Repr, DecidableEq

/-- Network phase of `find_and_send_random_item` (the body of its `try`).
`gw endpoint params` is the discover oracle; `none` models a request
failure, absorbed by the handler's `except` into the apology message.
`randint` models `random.randint` (inclusive bounds) and `choiceIdx`
models `random.choice` as an index reduced modulo the list length. -/
def find_random_item_core (gw : String → Params → Option GatewayPage)
    (endpoint : String) (baseParams : Params)
    (randint : Nat → Nat → Nat) (choiceIdx : Nat) : RandomOutcome :=
  match gw endpoint baseParams with
  | none => .errorCaught "Произошла ошибка при поиске."
  | some apiData =>
    if min (apiData.totalPages.getD 1) 500 = 0 then
      .noMatch "🤷‍♂️ К сожалению, не удалось найти ничего подходящего. Попробуйте другой жанр."
    else
      match gw endpoint (py_set baseParams "page"
          (.n ((randint 1 (min (apiData.totalPages.getD 1) 500)) : Rat))) with
      | none => .errorCaught "Произошла ошибка при поиске."
      | some r2 =>
        if (r2.results.filter (fun item => hasPosterPath item)).isEmpty then
          .noMatch "🤷‍♂️ Не удалось найти подходящий вариант. Попробуйте еще раз."
        else
          .found ((r2.results.filter (fun item => hasPosterPath item)).getD
              (choiceIdx % (r2.results.filter (fun item => hasPosterPath item)).length) default)
            (randint 1 (min (apiData.totalPages.getD 1) 500))

/-- `animation_id` lookup in `find_and_send_random_item`: the genre id
whose name lowercases to "мультфильм", else the string "16". -/
def animation_id (genresMap : List (Nat × String)) : PVal :=
  match genresMap.find? (fun p => p.2.toLower == "мультфильм") with
  | some p => .n (p.1 : Rat)
  | none => .s "16"

/-- Selectable categories of the random flow. -/
inductive RandomSelection where
  | movieGenre (gid : String)
  | movieCartoon
  | movieAnime
  | seriesGenre (gid : String)
deriving Repr, DecidableEq

/-- Extra filter params built for each selectable category in
`find_and_send_random_item`. -/
def selection_params (genresMovie : List (Nat × String)) :
    RandomSelection → Params
  | .movieGenre gid => [("with_genres", .s gid), ("without_genres", animation_id genresMovie)]
  | .movieCartoon => [("with_genres", animation_id genresMovie), ("without_keywords", .s "210024")]
  | .movieAnime => [("with_genres", animation_id genresMovie), ("with_keywords", .s "210024")]
  | .seriesGenre gid => [("with_genres", .s gid)]

/-- Base query of the random flow: fixed thresholds
`vote_average.gte = 7.5`, `vote_count.gte = 150`, `page = 1`, then the
category params spliced on top (`{**base, **params}`). -/
def random_base_params (apiKey : String) (extra : Params) : Params :=
  List.append
    [("api_key", .s apiKey), ("language", .s "en-US"),
     ("sort_by", .s "popularity.desc"), ("include_adult", .s "false"),
     ("vote_average.gte", .n (mkRat 15 2)), ("vote_count.gte", .n 150),
     ("page", .n 1)] extra

/-- Python genre-name rendering `f"'{genres_map.get(int(gid))}'"`
(the apostrophes are written as \x27). -/
def genre_name_text (genresMap : List (Nat × String)) (gid : Int) : String :=
  match genresMap.find? (fun p => ((p.1 : Int)) == gid) with
  | some p => "\x27" ++ p.2 ++ "\x27"
  | none => "\x27None\x27"

/-- Result of the unguarded parse/param-building phase of
`find_and_send_random_item` (everything before its `try`):
either an uncaught Python exception escaping the handler, or the item
type, extra params and progress-message text to proceed with. -/
inductive ParseOutcome where
  | raised (err : String)
  | proceed (itemType : String) (extra : Params) (searchText : String)
deriving Repr, DecidableEq

/-- Parse phase of `find_and_send_random_item`, applied to
`data.split("_")`.  Fewer than three segments fails the starred unpack
(ValueError); a genre selection with no id indexes `rest[0]` (IndexError);
a non-numeric genre id fails `int(genre_id)` (ValueError).  All of these
are outside the function's `try` block and escape the handler. -/
def parse_random_parts (genresMovie genresTv : List (Nat × String)) :
    List String → ParseOutcome
  | _action :: itemType :: selectionType :: rest =>
    if itemType = "movie" then
      if selectionType = "genre" then
        match rest with
        | [] => .raised "IndexError"
        | genreId :: _ =>
          match parsePyInt genreId with
          | none => .raised "ValueError"
          | some gid =>
            .proceed "movie" (selection_params genresMovie (.movieGenre genreId))
              (genre_name_text genresMovie gid)
      else if selectionType = "cartoon" then
        .proceed "movie" (selection_params genresMovie .movieCartoon) "\x27Мультфильм\x27"
      else if selectionType = "anime" then
        .proceed "movie" (selection_params genresMovie .movieAnime) "\x27Аниме\x27"
      else .proceed "movie" [] ""
    else if itemType = "series" then
      if selectionType = "genre" then
        match rest with
        | [] => .raised "IndexError"
        | genreId :: _ =>
          match parsePyInt genreId with
          | none => .raised "ValueError"
          | some gid =>
            .proceed "series" (selection_params genresMovie (.seriesGenre genreId))
              (genre_name_text genresTv gid)
      else .proceed "series" [] ""
    else .proceed itemType [] ""
  | _ => .raised "ValueError"

/-- `find_and_send_random_item` on a raw callback-data string: parse phase
(uncaught exceptions become `Except.error`), then the guarded network
phase on the movie or TV discover endpoint. -/
def find_and_send_random_item (genresMovie genresTv : List (Nat × String))
    (apiKey : String) (gw : String → Params → Option GatewayPage)
    (randint : Nat → Nat → Nat) (choiceIdx : Nat) (data : String) :
    Except String RandomOutcome :=
  match parse_random_parts genresMovie genresTv (py_split data '_') with
  | .raised e => .error e
  | .proceed itemType extra _text =>
    let endpoint := if itemType = "movie" then "discover/movie" else "discover/tv"
    .ok (find_random_item_core gw endpoint (random_base_params apiKey extra) randint choiceIdx)

/-- Inline keyboard button: callback button or external-URL button. -/
inductive Button where
  | cb (text : String) (data : String)
  | link (text : String) (url : String)
deriving Repr, DecidableEq

/-- Navigation row built by `format_item_message` when paginated with more
than one item: previous/next are page buttons at interior positions and
blank `noop` placeholders at the boundaries; the center label always
carries `noop`. -/
def nav_buttons (currentIndex totalCount : Nat) (listId : String) : List Button :=
  [ (if currentIndex > 0 then
      Button.cb "⬅️ Назад" ("page_" ++ listId ++ "_" ++ toString (currentIndex - 1))
    else Button.cb " " "noop"),
    Button.cb ("[" ++ toString (currentIndex + 1) ++ "/" ++ toString totalCount ++ "]") "noop",
    (if currentIndex < totalCount - 1 then
      Button.cb "➡️ Вперед" ("page_" ++ listId ++ "_" ++ toString (currentIndex + 1))
    else Button.cb " " "noop") ]

/-- Action row of `format_item_message`: optional reroll button and
optional trailer link. -/
def action_buttons (rerollData trailerUrl : Option String) : List Button :=
  List.append
    (match rerollData with | some d => [Button.cb "🔄 Повторить" d] | none => [])
    (match trailerUrl with | some u => [Button.link "🎬 Смотреть трейлер" u] | none => [])

/-- Keyboard assembly of `format_item_message`: the navigation row iff
paginated with `total_count > 1`, then the action row iff non-empty. -/
def format_item_message_keyboard (isPaginated : Bool)
    (currentIndex totalCount : Nat) (listId : String)
    (rerollData trailerUrl : Option String) : List (List Button) :=
  List.append
    (if isPaginated ∧ totalCount > 1 then [nav_buttons currentIndex totalCount listId] else [])
    (if (action_buttons rerollData trailerUrl).isEmpty then []
     else [action_buttons rerollData trailerUrl])

/-- The `item_lists` store: a dict from list id to stored item list. -/
abbrev Store := List (String × List EnrichedItem)

/-- Dict lookup in the store; the last binding of a key wins. -/
def store_get (s : Store) (k : String) : Option (List EnrichedItem) :=
  ((List.reverse s).find? (fun p => p.1 == k)).map (fun p => p.2)

/-- Dict insertion under a fresh uuid key. -/
def store_insert (s : Store) (k : String) (v : List EnrichedItem) : Store :=
  List.append s [(k, v)]

/-- Outcome of `pagination_handler`: silent return on a parse failure,
the stale-list message, or a re-rendered card at the given position. -/
inductive PageOutcome where
  | ignored
  | stale (msg : String)
  | rendered (idx : Nat) (keyboard : List (List Button))
deriving Repr, DecidableEq

/-- `pagination_handler`: split the token on "_" into exactly three parts,
parse the index as an int (any failure returns silently), look up the
list, treat a missing id, an empty list or an out-of-range index as a
stale list, and otherwise re-render position `idx`.  The store is
threaded through unchanged — the handler only reads it. -/
def pagination_handler (store : Store) (data : String) : PageOutcome × Store :=
  match py_split data '_' with
  | [_, listId, newIndexStr] =>
    match parsePyInt newIndexStr with
    | none => (.ignored, store)
    | some newIndex =>
      match store_get store listId with
      | none => (.stale "Ошибка: список устарел. Запросите заново.", store)
      | some items =>
        if items.isEmpty then (.stale "Ошибка: список устарел. Запросите заново.", store)
        else if 0 ≤ newIndex ∧ newIndex < (items.length : Int) then
          let idx := newIndex.toNat
          let item := items.getD idx default
          (.rendered idx
            (format_item_message_keyboard true idx items.length listId none item.trailerUrl),
           store)
        else (.stale "Ошибка: список устарел. Запросите заново.", store)
  | _ => (.ignored, store)

/-- A list is inserted by `releases_movie_command`,
`releases_series_command`, `next_movie_command`, `next_series_command`
only when the discovery result is non-empty; on an empty result the
command replies "nothing found" and stores nothing. -/
def release_command_store_effect (items : List EnrichedItem) (listId : String)
    (s : Store) : Store :=
  if items.isEmpty then s else store_insert s listId items

/-- Store effect of `year_command`: empty check on the raw top-3 list,
then the enriched list is inserted. -/
def year_command_store_effect (baseMovies : List RawItem)
    (fetchDetails : Nat → String → Details) (translate : String → String)
    (listId : String) (s : Store) : Store :=
  if baseMovies.isEmpty then s
  else store_insert s listId
    (baseMovies.map (fun m => enrich_item_data fetchDetails translate m "movie"))

/-- Store effect of `daily_movie_check_job` / `daily_series_check_job`:
empty check once, then one insertion per subscribed chat. -/
def daily_job_store_effect (items : List EnrichedItem) (listIds : List String)
    (s : Store) : Store :=
  if items.isEmpty then s
  else listIds.foldl (fun acc lid => store_insert acc lid items) s

/-- Non-null-poster property of a display-ready record: the raw poster
path is present and non-empty and the poster URL resolves it. -/
def poster_ok (r : EnrichedItem) : Prop :=
  ∃ p, r.posterPath = some p ∧ p ≠ "" ∧
    r.posterUrl = "https://image.tmdb.org/t/p/w780" ++ p

/-- Store invariant: every stored list is non-empty. -/
def all_nonempty (s : Store) : Prop := ∀ kv ∈ s, kv.2 ≠ []

/-- Concrete raw item living only in region US, used as test data. -/
def item_us : RawItem :=
  { id := 7, title := "US Movie", overview := "plot", posterPath := some "/us.jpg",
    popularity := 10, voteAverage := 8, voteCount := 200, genreIds := [28],
    releaseDate := "2026-10-12" }

/-- Details oracle with no providers and no videos, used as test data. -/
def fd_cex : Nat → String → Details :=
  fun _ _ => { watchProviders := { ru := none, us := none }, videos := [] }

/-- Identity translation oracle, used as test data. -/
def tr_cex : String → String := fun s => s

/-- Search oracle whose RU hits are empty while US has one poster-bearing
hit, used to separate the movie and series fallback behaviour. -/
def search_cex : String → List RawItem :=
  fun region => if region = "US" then [item_us] else []

/-- Enrichment of the US test item. -/
def enr_us : EnrichedItem := enrich_item_data fd_cex tr_cex item_us "movie"

/-- Store fixture holding one three-element list under id "abc123". -/
def store_w : Store := [("abc123", [enr_us, enr_us, enr_us])]

/-- Provider payload fixture: RU present but offer-less, US with offers. -/
def wp_cex : WatchProviders :=
  { ru := some { flatrate := none, buy := none, otherKeys := 1 },
    us := some { flatrate := some ["Netflix"], buy := none, otherKeys := 1 } }

/-- Gateway fixture for the random flow that returns the US test item
exactly when it satisfies the numeric thresholds of the query. -/
def check_thresholds (q : Params) (it : RawItem) : Bool :=
  (match py_get q "vote_average.gte" with
   | some (.n a) => decide (a ≤ it.voteAverage)
   | _ => true) &&
  (match py_get q "vote_count.gte" with
   | some (.n cnt) => decide (cnt ≤ (it.voteCount : Rat))
   | _ => true)

/-- Filtering gateway fixture built from `check_thresholds`. -/
def gw_wit : String → Params → Option GatewayPage :=
  fun _ q =>
    some { totalPages := some 1,
           results := [item_us].filter (fun it => check_thresholds q it) }

theorem hasPosterPath_spec {it : RawItem} (h : hasPosterPath it = true) :
    ∃ p, it.posterPath = some p ∧ p ≠ "" := by
  unfold hasPosterPath at h
  match hp : it.posterPath with
  | none => rw [hp] at h; cases h
  | some p =>
    rw [hp] at h
    refine ⟨p, rfl, ?_⟩
    intro h'
    subst h'
    exact absurd h (by decide)

theorem poster_ok_enrich (fd : Nat → String → Details) (tr : String → String)
    {item : RawItem} (ty : String) (h : hasPosterPath item = true) :
    poster_ok (enrich_item_data fd tr item ty) := by
  obtain ⟨p, hp, hne⟩ := hasPosterPath_spec h
  exact ⟨p, by simp [enrich_item_data, hp], hne,
    by simp [enrich_item_data, posterPathStr, hp]⟩

theorem mem_take_map {α β : Type} {l : List α} {k : Nat} {e : α → β} {r : β}
    (h : r ∈ (l.take k).map e) : ∃ x, x ∈ l ∧ r = e x := by
  obtain ⟨x, hx, h2⟩ := List.mem_map.mp h
  exact ⟨x, List.take_subset k l hx, h2.symm⟩

theorem getD_mod_mem {α : Type} [Inhabited α] {l : List α}
    (h : l.isEmpty = false) (i : Nat) : l.getD (i % l.length) default ∈ l := by
  have hne : l ≠ [] := by
    intro h'
    subst h'
    simp at h
  have hlen : 0 < l.length := List.length_pos.mpr hne
  have hm : i % l.length < l.length := Nat.mod_lt _ hlen
  rw [List.getD_eq_getElem l default hm]
  exact List.getElem_mem hm

theorem next_releases_loop_found (dayHits : Nat → List RawItem × Nat)
    (enrich : RawItem → EnrichedItem) (limit : Nat) :
    ∀ (rem i : Nat) (l : List EnrichedItem) (d c : Nat),
      next_releases_loop dayHits enrich limit i rem = ((l, some d), c) →
      i ≤ d ∧ d < i + rem ∧ (dayHits d).1 ≠ [] ∧
      l = ((dayHits d).1.take limit).map enrich ∧
      ∀ j, i ≤ j → j < d → (dayHits j).1 = [] := by
  intro rem
  induction rem with
  | zero =>
    intro i l d c h
    simp [next_releases_loop] at h
  | succ rem ih =>
    intro i l d c h
    simp only [next_releases_loop] at h
    by_cases hemp : (dayHits i).1.isEmpty
    · rw [if_pos hemp] at h
      rcases hr : next_releases_loop dayHits enrich limit (i + 1) rem with ⟨⟨l', od⟩, c'⟩
      rw [hr] at h
      injection h with h1 h2
      injection h1 with hl hd
      rw [hd] at hr
      obtain ⟨hle, hlt, hne, hleq, hall⟩ := ih (i + 1) l' d c' hr
      have hie : (dayHits i).1 = [] := List.isEmpty_iff.mp hemp
      refine ⟨by omega, by omega, hne, by rw [← hl]; exact hleq, ?_⟩
      intro j hij hjd
      rcases Nat.eq_or_lt_of_le hij with hji | hji
      · rw [← hji]; exact hie
      · exact hall j hji hjd
    · rw [if_neg hemp] at h
      injection h with h1 h2
      injection h1 with hl hd
      injection hd with hd'
      subst hd'
      refine ⟨Nat.le_refl i, by omega, ?_, hl.symm, ?_⟩
      · intro h'
        exact hemp (List.isEmpty_iff.mpr h')
      · intro j hij hjd
        omega

theorem next_releases_loop_none (dayHits : Nat → List RawItem × Nat)
    (enrich : RawItem → EnrichedItem) (limit : Nat) :
    ∀ (rem i : Nat) (l : List EnrichedItem) (c : Nat),
      next_releases_loop dayHits enrich limit i rem = ((l, none), c) →
      l = [] ∧ ∀ j, i ≤ j → j < i + rem → (dayHits j).1 = [] := by
  intro rem
  induction rem with
  | zero =>
    intro i l c h
    simp only [next_releases_loop] at h
    injection h with h1 h2
    injection h1 with hl hd
    exact ⟨hl.symm, fun j hij hjd => by omega⟩
  | succ rem ih =>
    intro i l c h
    simp only [next_releases_loop] at h
    by_cases hemp : (dayHits i).1.isEmpty
    · rw [if_pos hemp] at h
      rcases hr : next_releases_loop dayHits enrich limit (i + 1) rem with ⟨⟨l', od⟩, c'⟩
      rw [hr] at h
      injection h with h1 h2
      injection h1 with hl hd
      rw [hd] at hr
      obtain ⟨hleq, hall⟩ := ih (i + 1) l' c' hr
      have hie : (dayHits i).1 = [] := List.isEmpty_iff.mp hemp
      refine ⟨by rw [← hl]; exact hleq, ?_⟩
      intro j hij hjd
      rcases Nat.eq_or_lt_of_le hij with hji | hji
      · rw [← hji]; exact hie
      · exact hall j hji (by omega)
    · rw [if_neg hemp] at h
      injection h with h1 h2
      injection h1 with hl hd
      cases hd

theorem movie_day_hits_poster (search : Nat → String → List RawItem) (i : Nat) :
    ∀ x ∈ (movie_day_hits search i).1, hasPosterPath x = true := by
  intro x hx
  unfold movie_day_hits at hx
  by_cases hemp : ((search i "RU").filter (fun m => hasPosterPath m)).isEmpty
  · rw [if_pos hemp] at hx
    exact (List.mem_filter.mp hx).2
  · rw [if_neg hemp] at hx
    exact (List.mem_filter.mp hx).2

theorem series_day_hits_poster (search : Nat → String → List RawItem) (i : Nat) :
    ∀ x ∈ (series_day_hits search i).1, hasPosterPath x = true := by
  intro x hx
  exact (List.mem_filter.mp hx).2

theorem find_random_item_core_found
    (gw : String → Params → Option GatewayPage) (endpoint : String) (bp : Params)
    (randint : Nat → Nat → Nat) (choiceIdx : Nat) (it : RawItem) (p : Nat)
    (h : find_random_item_core gw endpoint bp randint choiceIdx = .found it p) :
    ∃ gp1 gp2, gw endpoint bp = some gp1 ∧
      min (gp1.totalPages.getD 1) 500 ≠ 0 ∧
      p = randint 1 (min (gp1.totalPages.getD 1) 500) ∧
      gw endpoint (py_set bp "page" (.n (p : Rat))) = some gp2 ∧
      it ∈ gp2.results.filter (fun x => hasPosterPath x) := by
  unfold find_random_item_core at h
  split at h
  · cases h
  · next gp1 hg1 =>
    split at h
    · cases h
    · next htp =>
      split at h
      · cases h
      · next gp2 hg2 =>
        split at h
        · cases h
        · next hres =>
          injection h with hit hp
          have hfalse : (gp2.results.filter (fun x => hasPosterPath x)).isEmpty = false := by
            simpa using hres
          refine ⟨gp1, gp2, hg1, htp, hp.symm, ?_, ?_⟩
          · rw [← hp]; exact hg2
          · rw [← hit]
            exact getD_mod_mem hfalse choiceIdx

theorem random_params_thresholds (genresMovie : List (Nat × String))
    (sel : RandomSelection) (apiKey : String) :
    py_get (random_base_params apiKey (selection_params genresMovie sel))
        "vote_average.gte" = some (.n (mkRat 15 2)) ∧
    py_get (random_base_params apiKey (selection_params genresMovie sel))
        "vote_count.gte" = some (.n 150) ∧
    ∀ pg : Rat,
      py_get (py_set (random_base_params apiKey (selection_params genresMovie sel))
          "page" (.n pg)) "vote_average.gte" = some (.n (mkRat 15 2)) ∧
      py_get (py_set (random_base_params apiKey (selection_params genresMovie sel))
          "page" (.n pg)) "vote_count.gte" = some (.n 150) := by
  cases sel <;>
    exact ⟨by simp [py_get, random_base_params, selection_params, List.find?],
      by simp [py_get, random_base_params, selection_params, List.find?],
      fun pg =>
        ⟨by simp [py_get, py_set, random_base_params, selection_params, List.find?],
         by simp [py_get, py_set, random_base_params, selection_params, List.find?]⟩⟩

/-- C1 counterexample: with RU empty and US holding one poster-bearing
item, the movie today-search falls back to US and returns the enriched US
item, while the series today-search returns the empty list — the region
fallback is not applied uniformly to both media kinds. -/
theorem today_fallback_not_uniform_cex :
    (search_cex "RU").filter (fun m => hasPosterPath m) = [] ∧
    (search_cex "US").filter (fun m => hasPosterPath m) = [item_us] ∧
    get_todays_top_digital_releases search_cex fd_cex tr_cex 5 =
      [enrich_item_data fd_cex tr_cex item_us "movie"] ∧
    get_todays_top_series_premieres search_cex fd_cex tr_cex 5 = [] :=
  ⟨rfl, rfl, rfl, rfl⟩

/-- C1 amended: the region fallback of the today-search applies to movies
only.  For movies, an empty poster-filtered RU result is retried against
US, and a non-empty one is used as is; in both cases the top `limit` hits
are enriched in the gateway's order with no re-sorting.  The series
today-search issues a single RU query and never consults the US region:
its output depends only on the RU response. -/
theorem today_fallback_movies_only
    (search : String → List RawItem) (fetchDetails : Nat → String → Details)
    (translate : String → String) (limit : Nat) :
    ((search "RU").filter (fun m => hasPosterPath m) = [] →
      get_todays_top_digital_releases search fetchDetails translate limit =
        (((search "US").filter (fun m => hasPosterPath m)).take limit).map
          (fun m => enrich_item_data fetchDetails translate m "movie")) ∧
    ((search "RU").filter (fun m => hasPosterPath m) ≠ [] →
      get_todays_top_digital_releases search fetchDetails translate limit =
        (((search "RU").filter (fun m => hasPosterPath m)).take limit).map
          (fun m => enrich_item_data fetchDetails translate m "movie")) ∧
    (∀ search2 : String → List RawItem, search "RU" = search2 "RU" →
      get_todays_top_series_premieres search fetchDetails translate limit =
        get_todays_top_series_premieres search2 fetchDetails translate limit) := by
  refine ⟨?_, ?_, ?_⟩
  · intro h
    simp [get_todays_top_digital_releases, h]
  · intro h
    have h' : ((search "RU").filter (fun m => hasPosterPath m)).isEmpty = false := by
      rcases hb : ((search "RU").filter (fun m => hasPosterPath m)).isEmpty
      · rfl
      · exact absurd (List.isEmpty_iff.mp hb) h
    simp [get_todays_top_digital_releases, h']
  · intro search2 h12
    unfold get_todays_top_series_premieres
    rw [h12]

/-- C1 witness: the amended theorem applied at the concrete two-region
oracle search_cex. -/
theorem today_fallback_movies_only_witness :
    get_todays_top_digital_releases search_cex fd_cex tr_cex 5 =
      (((search_cex "US").filter (fun m => hasPosterPath m)).take 5).map
        (fun m => enrich_item_data fd_cex tr_cex m "movie") ∧
    get_todays_top_series_premieres search_cex fd_cex tr_cex 5 =
      get_todays_top_series_premieres (fun _ => []) fd_cex tr_cex 5 :=
  ⟨(today_fallback_movies_only search_cex fd_cex tr_cex 5).1 rfl,
   (today_fallback_movies_only search_cex fd_cex tr_cex 5).2.2 (fun _ => []) rfl⟩

/-- C4 counterexample: the preferred region RU is present in the provider
payload but offer-less, the secondary region US has a streaming offer, and
the summary is nevertheless the unknown text — the code only falls back
when the RU key is absent, not when RU has no offers. -/
theorem watch_status_fallback_cex :
    get_watch_status_string wp_cex = "Статус релиза неизвестен" ∧
    region_providers { flatrate := none, buy := none, otherKeys := 1 } = [] ∧
    get_watch_status_string { ru := none, us := wp_cex.us } = "📺 Онлайн: Netflix" :=
  ⟨rfl, rfl, rfl⟩

/-- C4 amended: the secondary region is consulted only when the preferred
region key is absent from the provider payload.  When the preferred region
is present its entry alone determines the summary (the secondary region is
ignored), and the summary is the unknown text whenever the selected entry
yields no flatrate/buy providers; when the preferred region is absent the
secondary region's offers are summarized. -/
theorem watch_status_fallback_amended
    (r : WatchRegion) (us us2 : Option WatchRegion) :
    get_watch_status_string { ru := some r, us := us } =
      get_watch_status_string { ru := some r, us := us2 } ∧
    (region_providers r = [] →
      get_watch_status_string { ru := some r, us := us } = "Статус релиза неизвестен") ∧
    (∀ p ps b k,
      get_watch_status_string
          { ru := none, us := some { flatrate := some (p :: ps), buy := b, otherKeys := k } } =
        "📺 Онлайн: " ++ String.intercalate ", " (pySortedSet ((p :: ps).take 2))) := by
  refine ⟨rfl, ?_, ?_⟩
  · intro h
    show summary_of_results (some r) = _
    simp only [summary_of_results]
    by_cases hdict : r.flatrate = none ∧ r.buy = none ∧ r.otherKeys = 0
    · rw [if_pos hdict]
    · rw [if_neg hdict, h]
      rfl
  · intro p ps b k
    show summary_of_results
        (some { flatrate := some (p :: ps), buy := b, otherKeys := k }) = _
    simp only [summary_of_results]
    rw [if_neg (by simp)]
    have hrp : region_providers { flatrate := some (p :: ps), buy := b, otherKeys := k } =
        (p :: ps).take 2 := by
      unfold region_providers
      cases b with
      | none => rfl
      | some lst => cases lst <;> rfl
    rw [hrp]
    rfl

/-- C4 witness: the amended theorem at the RU-present-but-offer-less entry
and at an absent-RU payload with one US offer. -/
theorem watch_status_fallback_amended_witness :
    get_watch_status_string
        { ru := some { flatrate := none, buy := none, otherKeys := 1 },
          us := some { flatrate := some ["Netflix"], buy := none, otherKeys := 1 } } =
      "Статус релиза неизвестен" ∧
    get_watch_status_string
        { ru := none, us := some { flatrate := some ["Netflix"], buy := none, otherKeys := 1 } } =
      "📺 Онлайн: Netflix" :=
  ⟨(watch_status_fallback_amended { flatrate := none, buy := none, otherKeys := 1 }
      (some { flatrate := some ["Netflix"], buy := none, otherKeys := 1 }) none).2.1 rfl,
   ((watch_status_fallback_amended { flatrate := none, buy := none, otherKeys := 1 }
      none none).2.2 "Netflix" [] none 1).trans rfl⟩

/-- C5: in a paginated card's keyboard, no navigation row exists when
`total = 1`; when `total > 1` the navigation row is [previous, label,
next] where the center label shows "[index+1/total]" with token noop, the
previous slot is the blank noop placeholder at index 0 and carries
page_listId_(index-1) otherwise, and the next slot is the blank noop
placeholder at index total-1 and carries page_listId_(index+1) otherwise.
(The spec renders the same tokens with ":" as the abstract delimiter; the
code joins with "_".) -/
theorem card_nav_controls_spec (idx total : Nat) (listId : String)
    (rerollData trailerUrl : Option String) :
    (total = 1 →
      format_item_message_keyboard true idx total listId rerollData trailerUrl =
        (if (action_buttons rerollData trailerUrl).isEmpty then []
         else [action_buttons rerollData trailerUrl])) ∧
    (total > 1 →
      format_item_message_keyboard true idx total listId rerollData trailerUrl =
        nav_buttons idx total listId ::
          (if (action_buttons rerollData trailerUrl).isEmpty then []
           else [action_buttons rerollData trailerUrl]) ∧
      (nav_buttons idx total listId).getD 1 (Button.cb "" "") =
        Button.cb ("[" ++ toString (idx + 1) ++ "/" ++ toString total ++ "]") "noop" ∧
      (idx = 0 →
        (nav_buttons idx total listId).getD 0 (Button.cb "" "") = Button.cb " " "noop") ∧
      (0 < idx →
        (nav_buttons idx total listId).getD 0 (Button.cb "" "") =
          Button.cb "⬅️ Назад" ("page_" ++ listId ++ "_" ++ toString (idx - 1))) ∧
      (idx = total - 1 →
        (nav_buttons idx total listId).getD 2 (Button.cb "" "") = Button.cb " " "noop") ∧
      (idx < total - 1 →
        (nav_buttons idx total listId).getD 2 (Button.cb "" "") =
          Button.cb "➡️ Вперед" ("page_" ++ listId ++ "_" ++ toString (idx + 1)))) := by
  constructor
  · intro h
    subst h
    simp [format_item_message_keyboard]
  · intro h
    refine ⟨?_, rfl, ?_, ?_, ?_, ?_⟩
    · simp [format_item_message_keyboard, h]
    · intro h0
      subst h0
      rfl
    · intro h0
      simp [nav_buttons, h0]
    · intro hl
      subst hl
      simp [nav_buttons]
    · intro hl
      simp [nav_buttons, hl]

/-- C5 witness: the boundary and interior cases at total = 1 and total = 3. -/
theorem card_nav_controls_spec_witness :
    format_item_message_keyboard true 0 1 "L" none none =
      (if (action_buttons none none).isEmpty then [] else [action_buttons none none]) ∧
    (nav_buttons 0 3 "L").getD 0 (Button.cb "" "") = Button.cb " " "noop" ∧
    (nav_buttons 1 3 "L").getD 0 (Button.cb "" "") =
      Button.cb "⬅️ Назад" ("page_" ++ "L" ++ "_" ++ toString (1 - 1)) ∧
    (nav_buttons 2 3 "L").getD 2 (Button.cb "" "") = Button.cb " " "noop" ∧
    (nav_buttons 1 3 "L").getD 2 (Button.cb "" "") =
      Button.cb "➡️ Вперед" ("page_" ++ "L" ++ "_" ++ toString (1 + 1)) :=
  ⟨(card_nav_controls_spec 0 1 "L" none none).1 rfl,
   ((card_nav_controls_spec 0 3 "L" none none).2 (by decide)).2.2.1 rfl,
   ((card_nav_controls_spec 1 3 "L" none none).2 (by decide)).2.2.2.1 (by decide),
   ((card_nav_controls_spec 2 3 "L" none none).2 (by decide)).2.2.2.2.1 (by decide),
   ((card_nav_controls_spec 1 3 "L" none none).2 (by decide)).2.2.2.2.2 (by decide)⟩

/-- C6: for a page token splitting as [_, listId, idxStr] with a parsed
index, the router renders the terminal stale-list message when the id is
unknown, the stored list is empty, or the index is outside [0, total),
and re-renders the card at the index otherwise; in every case (including
unparseable tokens) the handler never throws — every outcome is a value
— and the store is returned unchanged. -/
theorem pagination_router_spec (store : Store) :
    (∀ data, (pagination_handler store data).2 = store) ∧
    (∀ data a listId idxStr idx,
      py_split data '_' = [a, listId, idxStr] →
      parsePyInt idxStr = some idx →
      ((store_get store listId = none ∨ store_get store listId = some [] ∨
        (∃ items, store_get store listId = some items ∧
          ¬(0 ≤ idx ∧ idx < (items.length : Int)))) →
        (pagination_handler store data).1 =
          .stale "Ошибка: список устарел. Запросите заново.") ∧
      (∀ items, store_get store listId = some items → 0 ≤ idx →
        idx < (items.length : Int) →
        (pagination_handler store data).1 = .rendered idx.toNat
          (format_item_message_keyboard true idx.toNat items.length listId none
            ((items.getD idx.toNat default).trailerUrl)))) := by
  constructor
  · intro data
    unfold pagination_handler
    repeat' split
    all_goals rfl
  · intro data a listId idxStr idx hsp hparse
    constructor
    · intro hbad
      simp only [pagination_handler, hsp, hparse]
      rcases hbad with hnone | hempty | ⟨items, hsome, hrange⟩
      · simp only [hnone]
      · simp only [hempty]
        rfl
      · simp only [hsome]
        by_cases hie : items.isEmpty = true
        · simp only [hie]
          rfl
        · simp only [Bool.of_not_eq_true hie]
          rw [if_neg hrange]
          rfl
    · intro items hsome h0 hlen
      simp only [pagination_handler, hsp, hparse, hsome]
      have hne : items.isEmpty = false := by
        cases items with
        | nil => simp at hlen; omega
        | cons x xs => rfl
      rw [hne]
      rw [if_neg (by decide : ¬(false = true))]
      rw [if_pos (show 0 ≤ idx ∧ idx < (items.length : Int) from ⟨h0, hlen⟩)]

/-- C6 witness: the stale-list scenario — token page_abc123_5 against a
store whose list abc123 has 3 items — and the unchanged store. -/
theorem pagination_router_spec_witness :
    (pagination_handler store_w "page_abc123_5").1 =
      .stale "Ошибка: список устарел. Запросите заново." ∧
    (pagination_handler store_w "page_abc123_5").2 = store_w :=
  ⟨((pagination_router_spec store_w).2 "page_abc123_5" "page" "abc123" "5" 5 rfl rfl).1
      (Or.inr (Or.inr ⟨[enr_us, enr_us, enr_us], rfl, by decide⟩)),
   (pagination_router_spec store_w).1 "page_abc123_5"⟩

/-- C7 counterexample: the random-shaped token "random_movie_genre"
(missing its genre id) reaches the router and raises an uncaught
IndexError — the parse phase of find_and_send_random_item sits outside
its try block — so a malformed token is not silently ignored. -/
theorem router_malformed_token_cex :
    find_and_send_random_item [] [] "K" (fun _ _ => none) (fun lo _ => lo) 0
        "random_movie_genre" = .error "IndexError" ∧
    parse_random_parts [] [] (py_split "random_movie_genre" '_') = .raised "IndexError" :=
  ⟨rfl, rfl⟩

/-- C7 amended: only page-shaped malformed tokens are ignored silently —
pagination_handler returns silently when the token does not split into
exactly three parts or its index fails to parse.  Random- and
reroll-shaped tokens are not guarded: a token with fewer than three
segments raises ValueError, a movie/series genre selection with a missing
id raises IndexError and with a non-numeric id raises ValueError, all
escaping the router; other selector shapes proceed without raising. -/
theorem router_malformed_token_amended (store : Store)
    (genresMovie genresTv : List (Nat × String)) (data : String) :
    ((py_split data '_').length ≠ 3 → pagination_handler store data = (.ignored, store)) ∧
    (∀ a b c, py_split data '_' = [a, b, c] → parsePyInt c = none →
      pagination_handler store data = (.ignored, store)) ∧
    ((py_split data '_').length < 3 →
      parse_random_parts genresMovie genresTv (py_split data '_') = .raised "ValueError") ∧
    (∀ a r, py_split data '_' = a :: "movie" :: "genre" :: r →
      ((r = [] →
        parse_random_parts genresMovie genresTv (py_split data '_') = .raised "IndexError") ∧
       (∀ g r2, r = g :: r2 → parsePyInt g = none →
        parse_random_parts genresMovie genresTv (py_split data '_') = .raised "ValueError"))) ∧
    (∀ a r, py_split data '_' = a :: "series" :: "genre" :: r →
      ((r = [] →
        parse_random_parts genresMovie genresTv (py_split data '_') = .raised "IndexError") ∧
       (∀ g r2, r = g :: r2 → parsePyInt g = none →
        parse_random_parts genresMovie genresTv (py_split data '_') = .raised "ValueError"))) ∧
    (∀ a b c r, py_split data '_' = a :: b :: c :: r → b ≠ "movie" → b ≠ "series" →
      parse_random_parts genresMovie genresTv (py_split data '_') = .proceed b [] "") := by
  refine ⟨?_, ?_, ?_, ?_, ?_, ?_⟩
  · intro hlen
    unfold pagination_handler
    rcases hsp : py_split data '_' with _ | ⟨x, _ | ⟨y, _ | ⟨z, _ | ⟨w, rest⟩⟩⟩⟩
    · rfl
    · rfl
    · rfl
    · rw [hsp] at hlen
      exact absurd rfl hlen
    · rfl
  · intro a b c hsp hparse
    simp only [pagination_handler, hsp, hparse]
  · intro hlen
    rcases hsp : py_split data '_' with _ | ⟨x, _ | ⟨y, _ | ⟨z, rest⟩⟩⟩
    · rfl
    · rfl
    · rfl
    · rw [hsp] at hlen
      simp only [List.length_cons] at hlen
      omega
  · intro a r hsp
    rw [hsp]
    constructor
    · intro hr
      subst hr
      rfl
    · intro g r2 hr hparse
      subst hr
      simp only [parse_random_parts, hparse]
      rfl
  · intro a r hsp
    rw [hsp]
    constructor
    · intro hr
      subst hr
      rfl
    · intro g r2 hr hparse
      subst hr
      simp only [parse_random_parts, hparse]
      rfl
  · intro a b c r hsp hbm hbs
    rw [hsp]
    simp only [parse_random_parts]
    rw [if_neg hbm, if_neg hbs]

/-- C7 witness: the amended behaviour at concrete tokens of each shape. -/
theorem router_malformed_token_amended_witness :
    pagination_handler [] "noop" = (.ignored, []) ∧
    parse_random_parts [] [] (py_split "noop" '_') = .raised "ValueError" ∧
    pagination_handler [] "page_a_x" = (.ignored, []) ∧
    parse_random_parts [] [] (py_split "random_movie_genre_zz" '_') = .raised "ValueError" ∧
    parse_random_parts [] [] (py_split "random_tv_foo" '_') = .proceed "tv" [] "" :=
  ⟨(router_malformed_token_amended [] [] [] "noop").1 (by decide),
   (router_malformed_token_amended [] [] [] "noop").2.2.1 (by decide),
   (router_malformed_token_amended [] [] [] "page_a_x").2.1 "page" "a" "x" rfl rfl,
   ((router_malformed_token_amended [] [] [] "random_movie_genre_zz").2.2.2.1
      "random" ["zz"] rfl).2 "zz" [] rfl rfl,
   (router_malformed_token_amended [] [] [] "random_tv_foo").2.2.2.2.2
      "random" "tv" "foo" [] rfl (by decide) (by decide)⟩

/-- C2: the random pick is two-phase.  When it returns an item, the item
has a poster, was drawn from the poster-filtered results of a second
query whose page equals randint 1 (min totalPages 500) — hence lies in
[1, min(totalPages, 500)] with totalPages learned from the page-1 query —
and when every page of the filter has zero poster-bearing results the
outcome is an explicit no-match message: a value, never an exception and
never a poster-less item. -/
theorem randomPick_two_phase_spec
    (gw : String → Params → Option GatewayPage) (endpoint : String) (bp : Params)
    (randint : Nat → Nat → Nat) (choiceIdx : Nat)
    (hrand : ∀ lo hi, 1 ≤ lo → lo ≤ hi → lo ≤ randint lo hi ∧ randint lo hi ≤ hi) :
    (∀ it p, find_random_item_core gw endpoint bp randint choiceIdx = .found it p →
      hasPosterPath it = true ∧
      ∃ gp1 gp2, gw endpoint bp = some gp1 ∧
        1 ≤ p ∧ p ≤ min (gp1.totalPages.getD 1) 500 ∧
        p = randint 1 (min (gp1.totalPages.getD 1) 500) ∧
        gw endpoint (py_set bp "page" (.n (p : Rat))) = some gp2 ∧
        it ∈ gp2.results.filter (fun x => hasPosterPath x)) ∧
    ((∀ q, ∃ gp, gw endpoint q = some gp ∧
        gp.results.filter (fun x => hasPosterPath x) = []) →
      ∃ msg, find_random_item_core gw endpoint bp randint choiceIdx = .noMatch msg) := by
  constructor
  · intro it p h
    obtain ⟨gp1, gp2, hg1, htp, hpe, hg2, hmem⟩ :=
      find_random_item_core_found gw endpoint bp randint choiceIdx it p h
    have hmin1 : 1 ≤ min (gp1.totalPages.getD 1) 500 := by omega
    obtain ⟨hlo, hhi⟩ := hrand 1 (min (gp1.totalPages.getD 1) 500) (Nat.le_refl 1) hmin1
    refine ⟨(List.mem_filter.mp hmem).2, gp1, gp2, hg1, ?_, ?_, hpe, hg2, hmem⟩
    · rw [hpe]; exact hlo
    · rw [hpe]; exact hhi
  · intro hall
    obtain ⟨gp1, hg1, hemp1⟩ := hall bp
    by_cases htp : min (gp1.totalPages.getD 1) 500 = 0
    · refine ⟨"🤷‍♂️ К сожалению, не удалось найти ничего подходящего. Попробуйте другой жанр.", ?_⟩
      simp only [find_random_item_core, hg1, if_pos htp]
    · obtain ⟨gp2, hg2, hemp2⟩ :=
        hall (py_set bp "page" (.n ((randint 1 (min (gp1.totalPages.getD 1) 500)) : Rat)))
      refine ⟨"🤷‍♂️ Не удалось найти подходящий вариант. Попробуйте еще раз.", ?_⟩
      simp only [find_random_item_core, hg1, if_neg htp, hg2, hemp2]
      rfl

/-- C2 witness: random-pick bound oracle returning the upper bound. -/
def randint_hi : Nat → Nat → Nat := fun _ hi => hi

/-- C2 witness: three-page gateway always answering with the US item. -/
def gw_w2 : String → Params → Option GatewayPage :=
  fun _ _ => some { totalPages := some 3, results := [item_us] }

/-- C2 witness: the two-phase theorem at a concrete gateway with three
pages, where the sampled page is 3 and the US test item is returned. -/
theorem randomPick_two_phase_spec_witness :
    hasPosterPath item_us = true ∧
    ∃ gp1 gp2, gw_w2 "discover/movie" [] = some gp1 ∧
      1 ≤ 3 ∧ 3 ≤ min (gp1.totalPages.getD 1) 500 ∧
      3 = randint_hi 1 (min (gp1.totalPages.getD 1) 500) ∧
      gw_w2 "discover/movie" (py_set [] "page" (.n ((3 : Nat) : Rat))) = some gp2 ∧
      item_us ∈ gp2.results.filter (fun x => hasPosterPath x) :=
  (randomPick_two_phase_spec gw_w2 "discover/movie" [] randint_hi 0
      (fun _ hi _ h2 => ⟨h2, Nat.le_refl hi⟩)).1 item_us 3 rfl

/-- C3: the next-release walk (movies and series alike) starts at
tomorrow (day offset 0), runs the exact-date search at each successive
day for at most `searchDays` days, stops at the first day whose
poster-filtered hits are non-empty — returning that day and the top
`limit` hits enriched in order — and returns ([], none) when the horizon
is exhausted; with a horizon of 0 it returns ([], none) having issued 0
catalog requests. -/
theorem nextReleases_spec
    (search : Nat → String → List RawItem) (fetchDetails : Nat → String → Details)
    (translate : String → String) (limit searchDays : Nat) :
    (get_next_digital_releases search fetchDetails translate limit 0 = (([], none), 0) ∧
     get_next_series_premieres search fetchDetails translate limit 0 = (([], none), 0)) ∧
    (∀ l d c, get_next_digital_releases search fetchDetails translate limit searchDays =
        ((l, some d), c) →
      d < searchDays ∧ (movie_day_hits search d).1 ≠ [] ∧
      l = ((movie_day_hits search d).1.take limit).map
        (fun m => enrich_item_data fetchDetails translate m "movie") ∧
      ∀ j, j < d → (movie_day_hits search j).1 = []) ∧
    (∀ l c, get_next_digital_releases search fetchDetails translate limit searchDays =
        ((l, none), c) →
      l = [] ∧ ∀ j, j < searchDays → (movie_day_hits search j).1 = []) ∧
    (∀ l d c, get_next_series_premieres search fetchDetails translate limit searchDays =
        ((l, some d), c) →
      d < searchDays ∧ (series_day_hits search d).1 ≠ [] ∧
      l = ((series_day_hits search d).1.take limit).map
        (fun s => enrich_item_data fetchDetails translate s "tv") ∧
      ∀ j, j < d → (series_day_hits search j).1 = []) ∧
    (∀ l c, get_next_series_premieres search fetchDetails translate limit searchDays =
        ((l, none), c) →
      l = [] ∧ ∀ j, j < searchDays → (series_day_hits search j).1 = []) := by
  refine ⟨⟨rfl, rfl⟩, ?_, ?_, ?_, ?_⟩
  · intro l d c h
    obtain ⟨h1, h2, h3, h4, h5⟩ := next_releases_loop_found (movie_day_hits search)
      (fun m => enrich_item_data fetchDetails translate m "movie") limit searchDays 0 l d c h
    exact ⟨by omega, h3, h4, fun j hj => h5 j (Nat.zero_le j) hj⟩
  · intro l c h
    obtain ⟨h1, h2⟩ := next_releases_loop_none (movie_day_hits search)
      (fun m => enrich_item_data fetchDetails translate m "movie") limit searchDays 0 l c h
    exact ⟨h1, fun j hj => h2 j (Nat.zero_le j) (by omega)⟩
  · intro l d c h
    obtain ⟨h1, h2, h3, h4, h5⟩ := next_releases_loop_found (series_day_hits search)
      (fun s => enrich_item_data fetchDetails translate s "tv") limit searchDays 0 l d c h
    exact ⟨by omega, h3, h4, fun j hj => h5 j (Nat.zero_le j) hj⟩
  · intro l c h
    obtain ⟨h1, h2⟩ := next_releases_loop_none (series_day_hits search)
      (fun s => enrich_item_data fetchDetails translate s "tv") limit searchDays 0 l c h
    exact ⟨h1, fun j hj => h2 j (Nat.zero_le j) (by omega)⟩

/-- C3 witness: search oracle with a hit on day offset 1 only. -/
def search_day1 : Nat → String → List RawItem :=
  fun i _ => if i = 1 then [item_us] else []

/-- C3 witness: the walk over search_day1 stops at day 1 with the
enriched hit, and the day-0 hits are confirmed empty. -/
theorem nextReleases_spec_witness :
    (1 : Nat) < 3 ∧ (movie_day_hits search_day1 1).1 ≠ [] ∧
    [enrich_item_data fd_cex tr_cex item_us "movie"] =
      ((movie_day_hits search_day1 1).1.take 5).map
        (fun m => enrich_item_data fd_cex tr_cex m "movie") ∧
    ∀ j, j < 1 → (movie_day_hits search_day1 j).1 = [] :=
  (nextReleases_spec search_day1 fd_cex tr_cex 5 3).2.1
    [enrich_item_data fd_cex tr_cex item_us "movie"] 1 3 rfl

/-- C8: every enriched record produced by any discovery operation — today
releases (movies and series), next releases (movies and series), the
historical year search, and the random pick — has a poster: candidates
without a poster path are filtered out before enrichment, and enrichment
resolves the path into the full poster URL. -/
theorem enriched_records_have_poster
    (searchT : String → List RawItem) (searchN : Nat → String → List RawItem)
    (searchY : List RawItem) (fetchDetails : Nat → String → Details)
    (translate : String → String) (limit searchDays : Nat) :
    (∀ r ∈ get_todays_top_digital_releases searchT fetchDetails translate limit,
      poster_ok r) ∧
    (∀ r ∈ get_todays_top_series_premieres searchT fetchDetails translate limit,
      poster_ok r) ∧
    (∀ l d c r,
      get_next_digital_releases searchN fetchDetails translate limit searchDays = ((l, d), c) →
      r ∈ l → poster_ok r) ∧
    (∀ l d c r,
      get_next_series_premieres searchN fetchDetails translate limit searchDays = ((l, d), c) →
      r ∈ l → poster_ok r) ∧
    (∀ r ∈ year_command_movies searchY fetchDetails translate, poster_ok r) ∧
    (∀ gw endpoint bp randint choiceIdx it p ty,
      find_random_item_core gw endpoint bp randint choiceIdx = .found it p →
      hasPosterPath it = true ∧
      poster_ok (enrich_item_data fetchDetails translate it ty)) := by
  refine ⟨?_, ?_, ?_, ?_, ?_, ?_⟩
  · intro r hr
    obtain ⟨x, hx, hre⟩ := mem_take_map hr
    rw [hre]
    refine poster_ok_enrich fetchDetails translate "movie" ?_
    by_cases hemp : ((searchT "RU").filter (fun m => hasPosterPath m)).isEmpty
    · rw [if_pos hemp] at hx
      exact (List.mem_filter.mp hx).2
    · rw [if_neg hemp] at hx
      exact (List.mem_filter.mp hx).2
  · intro r hr
    obtain ⟨x, hx, hre⟩ := mem_take_map hr
    rw [hre]
    exact poster_ok_enrich fetchDetails translate "tv" (List.mem_filter.mp hx).2
  · intro l d c r h hr
    cases d with
    | none =>
      obtain ⟨hl, _⟩ := next_releases_loop_none (movie_day_hits searchN)
        (fun m => enrich_item_data fetchDetails translate m "movie") limit searchDays 0 l c h
      rw [hl] at hr
      cases hr
    | some d' =>
      obtain ⟨_, _, _, hleq, _⟩ := next_releases_loop_found (movie_day_hits searchN)
        (fun m => enrich_item_data fetchDetails translate m "movie") limit searchDays 0 l d' c h
      rw [hleq] at hr
      obtain ⟨x, hx, hre⟩ := mem_take_map hr
      rw [hre]
      exact poster_ok_enrich fetchDetails translate "movie"
        (movie_day_hits_poster searchN d' x hx)
  · intro l d c r h hr
    cases d with
    | none =>
      obtain ⟨hl, _⟩ := next_releases_loop_none (series_day_hits searchN)
        (fun s => enrich_item_data fetchDetails translate s "tv") limit searchDays 0 l c h
      rw [hl] at hr
      cases hr
    | some d' =>
      obtain ⟨_, _, _, hleq, _⟩ := next_releases_loop_found (series_day_hits searchN)
        (fun s => enrich_item_data fetchDetails translate s "tv") limit searchDays 0 l d' c h
      rw [hleq] at hr
      obtain ⟨x, hx, hre⟩ := mem_take_map hr
      rw [hre]
      exact poster_ok_enrich fetchDetails translate "tv"
        (series_day_hits_poster searchN d' x hx)
  · intro r hr
    obtain ⟨x, hx, hre⟩ := mem_take_map hr
    rw [hre]
    exact poster_ok_enrich fetchDetails translate "movie" (List.mem_filter.mp hx).2
  · intro gw endpoint bp randint choiceIdx it p ty h
    obtain ⟨gp1, gp2, _, _, _, _, hmem⟩ :=
      find_random_item_core_found gw endpoint bp randint choiceIdx it p h
    have hposter := (List.mem_filter.mp hmem).2
    exact ⟨hposter, poster_ok_enrich fetchDetails translate ty hposter⟩

/-- C8 witness: the poster property of the record enriched from the US
test item, obtained through the today-releases conjunct. -/
theorem enriched_records_have_poster_witness :
    poster_ok (enrich_item_data fd_cex tr_cex item_us "movie") :=
  (enriched_records_have_poster search_cex (fun _ _ => []) [] fd_cex tr_cex 5 0).1
    (enrich_item_data fd_cex tr_cex item_us "movie") (List.mem_singleton.mpr rfl)

/-- C9: every creation site inserts into the item_lists store only after
checking that the discovery result is non-empty, so each store effect
preserves the invariant that all stored lists are non-empty, and under
that invariant every successful lookup yields a non-empty list. -/
theorem store_lists_nonempty_invariant
    (s : Store) (items : List EnrichedItem) (baseMovies : List RawItem)
    (fetchDetails : Nat → String → Details) (translate : String → String)
    (listId : String) (listIds : List String) :
    (all_nonempty s → all_nonempty (release_command_store_effect items listId s)) ∧
    (all_nonempty s →
      all_nonempty (year_command_store_effect baseMovies fetchDetails translate listId s)) ∧
    (all_nonempty s → all_nonempty (daily_job_store_effect items listIds s)) ∧
    (all_nonempty s → ∀ k l, store_get s k = some l → l ≠ []) := by
  have hins : ∀ (s' : Store) (k : String) (v : List EnrichedItem),
      all_nonempty s' → v ≠ [] → all_nonempty (store_insert s' k v) := by
    intro s' k v hs hv kv hkv
    rcases List.mem_append.mp hkv with hmem | hmem
    · exact hs kv hmem
    · rw [List.mem_singleton.mp hmem]
      exact hv
  refine ⟨?_, ?_, ?_, ?_⟩
  · intro hs
    unfold release_command_store_effect
    by_cases hemp : items.isEmpty
    · rw [if_pos hemp]; exact hs
    · rw [if_neg hemp]
      exact hins s listId items hs
        (fun h => hemp (List.isEmpty_iff.mpr h))
  · intro hs
    unfold year_command_store_effect
    by_cases hemp : baseMovies.isEmpty
    · rw [if_pos hemp]; exact hs
    · rw [if_neg hemp]
      refine hins s listId _ hs ?_
      intro h
      exact hemp (List.isEmpty_iff.mpr (List.map_eq_nil.mp h))
  · intro hs
    unfold daily_job_store_effect
    by_cases hemp : items.isEmpty
    · rw [if_pos hemp]; exact hs
    · rw [if_neg hemp]
      have hv : items ≠ [] := fun h => hemp (List.isEmpty_iff.mpr h)
      clear hemp
      induction listIds generalizing s with
      | nil => exact hs
      | cons x xs ih => exact ih _ (hins s x items hs hv)
  · intro hs k l hget
    unfold store_get at hget
    rcases hfind : (List.reverse s).find? (fun p => p.1 == k) with _ | kv
    · rw [hfind] at hget
      cases hget
    · rw [hfind] at hget
      injection hget with hget'
      rw [← hget']
      exact hs kv (List.mem_reverse.mp (List.mem_of_find?_eq_some hfind))

/-- C9 witness: the invariant at concrete stores — inserting a singleton
list into the empty store, the daily-job fan-out, and the lookup of the
three-element fixture list. -/
theorem store_lists_nonempty_invariant_witness :
    all_nonempty (release_command_store_effect [enr_us] "id1" []) ∧
    all_nonempty (daily_job_store_effect [enr_us] ["c1", "c2"] []) ∧
    [enr_us, enr_us, enr_us] ≠ [] :=
  ⟨(store_lists_nonempty_invariant [] [enr_us] [] fd_cex tr_cex "id1" []).1
      (by intro kv h; cases h),
   (store_lists_nonempty_invariant [] [enr_us] [] fd_cex tr_cex "id1" ["c1", "c2"]).2.2.1
      (by intro kv h; cases h),
   (store_lists_nonempty_invariant store_w [] [] fd_cex tr_cex "id1" []).2.2.2
      (by
        intro kv hkv
        rw [List.mem_singleton.mp hkv]
        exact List.cons_ne_nil _ _)
      "abc123" [enr_us, enr_us, enr_us] rfl⟩

/-- C10: the random-pick query contains vote_average.gte = 7.5 and
vote_count.gte = 150 in both phases (page-1 probe and sampled page), for
every selectable category, and therefore — for a gateway honouring its
numeric filters — any returned item has rating at least 7.5 and at least
150 votes. -/
theorem random_filter_thresholds
    (genresMovie : List (Nat × String)) (sel : RandomSelection) (apiKey : String)
    (page : Nat) :
    py_get (random_base_params apiKey (selection_params genresMovie sel))
        "vote_average.gte" = some (.n (mkRat 15 2)) ∧
    py_get (random_base_params apiKey (selection_params genresMovie sel))
        "vote_count.gte" = some (.n 150) ∧
    py_get (py_set (random_base_params apiKey (selection_params genresMovie sel))
        "page" (.n (page : Rat))) "vote_average.gte" = some (.n (mkRat 15 2)) ∧
    py_get (py_set (random_base_params apiKey (selection_params genresMovie sel))
        "page" (.n (page : Rat))) "vote_count.gte" = some (.n 150) ∧
    (∀ (gw : String → Params → Option GatewayPage) (endpoint : String)
       (randint : Nat → Nat → Nat) (choiceIdx : Nat),
      (∀ q gp it, gw endpoint q = some gp → it ∈ gp.results →
        (∀ a : Rat, py_get q "vote_average.gte" = some (.n a) → a ≤ it.voteAverage) ∧
        (∀ cnt : Rat, py_get q "vote_count.gte" = some (.n cnt) →
          cnt ≤ (it.voteCount : Rat))) →
      ∀ it p, find_random_item_core gw endpoint
          (random_base_params apiKey (selection_params genresMovie sel)) randint choiceIdx
          = .found it p →
        mkRat 15 2 ≤ it.voteAverage ∧ 150 ≤ it.voteCount) := by
  obtain ⟨hq1, hq2, hq3⟩ := random_params_thresholds genresMovie sel apiKey
  refine ⟨hq1, hq2, (hq3 (page : Rat)).1, (hq3 (page : Rat)).2, ?_⟩
  intro gw endpoint randint choiceIdx hgw it p hfound
  obtain ⟨gp1, gp2, hg1, _, _, hg2, hmem⟩ :=
    find_random_item_core_found gw endpoint
      (random_base_params apiKey (selection_params genresMovie sel)) randint choiceIdx it p hfound
  obtain ⟨ha, hc⟩ := hgw _ gp2 it hg2 (List.mem_filter.mp hmem).1
  refine ⟨ha (mkRat 15 2) (hq3 (p : Rat)).1, ?_⟩
  have := hc 150 (hq3 (p : Rat)).2
  exact_mod_cast this

/-- C10 witness: the thresholds conclusion at the filtering gateway
fixture, where the US test item (rating 8, 200 votes) is returned. -/
theorem random_filter_thresholds_witness :
    mkRat 15 2 ≤ item_us.voteAverage ∧ 150 ≤ item_us.voteCount :=
  (random_filter_thresholds [] (.movieGenre "28") "K" 1).2.2.2.2
    gw_wit "discover/movie" (fun lo _ => lo) 0
    (by
      intro q gp it hgp hit
      injection hgp with hgp'
      rw [← hgp'] at hit
      have hc := (List.mem_filter.mp hit).2
      unfold check_thresholds at hc
      rw [Bool.and_eq_true] at hc
      obtain ⟨hc1, hc2⟩ := hc
      constructor
      · intro a ha
        rw [ha] at hc1
        exact of_decide_eq_true hc1
      · intro cnt hcnt
        rw [hcnt] at hc2
        exact of_decide_eq_true hc2)
    item_us 1 (by decide)

end MovieBot
